import Mathlib

set_option maxHeartbeats 1000000

/-!
Verification development for the vih interpreter.

The definitions below are a shallow embedding of the Python sources:
  src/src/evaluator.py  (tree-walking evaluator, the authoritative version)
  src/src/lexer.py      (token kinds / token stream contract)
  src/parser.py         (Pratt parser)

Machine integers are modelled as `Int` (Python ints are arbitrary precision).
Python `None` references are modelled as `Option Obj` (`none` = Python `None`).
Unhandled host exceptions are modelled by the `exn` outcome, carrying the
Python exception class name.  All evaluator and parser functions take a fuel
argument and return a `timeout` outcome when it runs out; a function that
diverges in Python returns `timeout` for every fuel.
-/

namespace Vih

/-! ## AST (classes in src/parser.py, as imported by src/src/evaluator.py)

The Python sources use one class per node with a Statement / Expression
split; `BlockStatement.statements` is the list of statements of a block.
Token fields (used only for tracing / error positions) are dropped.
-/

mutual

inductive Expr where
  | intLit (value : Int)
  | strLit (value : String)
  | boolLit (value : Bool)
  | ident (value : String)
  | listLit (elements : List Expr)
  | funcLit (parameters : List String) (body : List Stmt)
  | prefixE (op : String) (right : Expr)
  | infixE (op : String) (left : Expr) (right : Expr)
  | ifE (condition : Expr) (consequence : List Stmt) (alternative : Option (List Stmt))
  | callE (function : Expr) (arguments : List Expr)
  | indexE (collection : Expr) (idx : Expr)

inductive Stmt where
  | exprStmt (expression : Expr)
  | letStmt (name : String) (value : Expr)
  | retStmt (returnValue : Expr)
  | blockStmt (statements : List Stmt)
  | forStmt (counter : String) (initialValue : Expr) (condition : Expr)
      (updateRule : Stmt) (body : List Stmt)

end

/-! ## Runtime objects (src/src/evaluator.py, classes Object .. NullObject)

`Obj.bool true` / `Obj.bool false` / `Obj.null` model the TRUE / FALSE / NULL
singletons: in the source every BooleanObject and NullObject reachable during
evaluation is one of the three module-level singletons, so Python identity
comparison against a singleton coincides with constructor equality here.
`Obj.func` stores the captured environment as an index into the heap of
frames.  List elements are `Option Obj` because Python list elements can be
`None` (e.g. the value of a `puts(...)` call).
-/

inductive Obj where
  | int (value : Int)
  | bool (value : Bool)
  | str (value : String)
  | ret (value : Option Obj)
  | func (parameters : List String) (body : List Stmt) (env : Nat)
  | builtin (name : String)
  | list (elements : List (Option Obj))
  | error (msg : String)
  | null

/-- Frame of an Environment: `store` is the dict, `outer` the optional outer
environment (as a heap index).  Mirrors `Environment.__init__`; the
per-environment `builtin` dict has identical contents in every instance and
is modelled by the global `builtinLookup` below.  Stored values are
`Option Obj` because `env.set` can be called with Python `None`. -/
structure Frame where
  store : List (String × Option Obj)
  outer : Option Nat

abbrev Heap := List Frame

/-- Outcome of one Python evaluator call: a returned reference (possibly
`None`), an unhandled host exception (by class name), or fuel exhaustion. -/
inductive Res where
  | ok (v : Option Obj)
  | exn (e : String)
  | timeout

/-- Outcome of `eval_expressions`: the source returns either a Python list of
evaluated objects or the first ErrorObject encountered. -/
inductive ListRes where
  | vals (l : List (Option Obj))
  | errObj (o : Obj)
  | exn (e : String)
  | timeout

/-- Mirrors `get_type_name` plus Python `%s` formatting of `None`:
`expr.otype.name` for objects (uppercase variant tags), `"None"` when the
argument is `None` (AttributeError caught, `None` formatted by `%s`). -/
def getTypeName : Option Obj → String
  | none => "None"
  | some (.int _) => "INTEGER"
  | some (.bool _) => "BOOLEAN"
  | some (.str _) => "STRING"
  | some (.ret _) => "RETURN_VALUE"
  | some (.func _ _ _) => "FUNCTION"
  | some (.builtin _) => "BUILTIN"
  | some (.list _) => "LIST"
  | some (.error _) => "ERROR"
  | some .null => "NULL"

/-- Mirrors `is_error` (None is not an error). -/
def is_error : Option Obj → Bool
  | some (.error _) => true
  | _ => false

/-- Predicate used in block/program propagation: `isinstance(result, ReturnObject)`. -/
def isRet : Option Obj → Bool
  | some (.ret _) => true
  | _ => false

/-- Mirrors `is_truthy`.  The comparisons in the source are Python `==`
against the singletons, i.e. identity; note that the Python value `None`
(modelled as `none`) matches no singleton and is therefore truthy. -/
def is_truthy : Option Obj → Bool
  | some .null => false
  | some (.bool b) => b
  | _ => true

/-- Mirrors `eval_not_operator_expression` (identity comparison against the
TRUE / FALSE / NULL singletons; everything else, including Python `None`,
falls through to FALSE). -/
def eval_not_operator_expression : Option Obj → Obj
  | some (.bool true) => .bool false
  | some (.bool false) => .bool true
  | some .null => .bool true
  | _ => .bool false

/-- Mirrors `eval_minus_prefix_operator_expression`.  The source's
`right.value is None` guard is unreachable (IntegerObject is always
constructed with an int) and is dropped. -/
def eval_minus_prefix_operator_expression (right : Option Obj) : Obj :=
  match right with
  | some (.int v) => .int (-v)
  | r => .error ("unknown operator: -" ++ getTypeName r)

/-- Mirrors `eval_prefix_expression`. -/
def eval_prefix_expression (op : String) (right : Option Obj) : Obj :=
  if op = "!" then eval_not_operator_expression right
  else if op = "-" then eval_minus_prefix_operator_expression right
  else .error ("unknown operator: " ++ op ++ getTypeName right)

/-! ## Python attribute / comparison semantics for the generic infix branch

The fallthrough branch of `eval_infix_expression` reads `left.value` and
`right.value` and compares them with the native Python operators.  `pyValue`
models the `.value` attribute: `none` means the attribute does not exist and
reading it raises AttributeError (the base class only annotates `value`,
it never assigns it, so NullObject, ListObject, FunctionObject,
BuiltinObject and ErrorObject have no `value`).  `ReturnObject.value` is the
wrapped object reference (`pobj`).
-/

inductive PyVal where
  | pint (i : Int)
  | pbool (b : Bool)
  | pstr (s : String)
  | pobj (o : Option Obj)

def pyValue : Option Obj → Option PyVal
  | some (.int v) => some (.pint v)
  | some (.bool v) => some (.pbool v)
  | some (.str v) => some (.pstr v)
  | some (.ret v) => some (.pobj v)
  | _ => none

/-- Numeric view: Python bool is an int subclass (True == 1, False == 0). -/
def pyNum : PyVal → Option Int
  | .pint i => some i
  | .pbool b => some (if b then 1 else 0)
  | _ => none

/-- Python `==` on the possible `.value` payloads.  Cross-type `==` between
a string and a number is False; `pobj` payloads fall back to Python's
default identity equality, which is not representable on values — they are
modelled as unequal (a `.value` of object kind only arises from a
ReturnObject operand, which no expression evaluation produces; no claim
depends on this corner). -/
def pyEqB : PyVal → PyVal → Bool
  | .pstr a, .pstr b => a = b
  | a, b =>
    match pyNum a, pyNum b with
    | some x, some y => x = y
    | _, _ => false

/-- Python `<` on the possible `.value` payloads; `Except.error` is a host
TypeError (order comparison between incompatible types). -/
def pyLtB : PyVal → PyVal → Except String Bool
  | .pstr a, .pstr b => .ok (decide (a < b))
  | a, b =>
    match pyNum a, pyNum b with
    | some x, some y => .ok (decide (x < y))
    | _, _ => .error "TypeError"

/-- Python `<=` on the possible `.value` payloads. -/
def pyLeB : PyVal → PyVal → Except String Bool
  | .pstr a, .pstr b => .ok (decide (a ≤ b))
  | a, b =>
    match pyNum a, pyNum b with
    | some x, some y => .ok (decide (x ≤ y))
    | _, _ => .error "TypeError"

/-- Mirrors `eval_integer_infix_expression` for two IntegerObject operands.
Python `/` computes `int(left.value / right.value)`: float division followed
by truncation toward zero, raising ZeroDivisionError on a zero divisor.  It
is modelled as exact truncating division (`Int.tdiv`); the binary64 rounding
that Python's float division performs on quotients of magnitude ≥ 2^53 is
not modelled (no claim depends on values that large).  The `int(...)`
wrappers the source puts around the `>=` and `!=` comparisons do not change
which singleton `native_bool_to_boolean_object` selects and are dropped. -/
def eval_integer_infix_expression (op : String) (a b : Int) : Except String Obj :=
  if op = "+" then .ok (.int (a + b))
  else if op = "-" then .ok (.int (a - b))
  else if op = "*" then .ok (.int (a * b))
  else if op = "/" then
    (if b = 0 then .error "ZeroDivisionError" else .ok (.int (a.tdiv b)))
  else if op = "<" then .ok (.bool (decide (a < b)))
  else if op = ">" then .ok (.bool (decide (b < a)))
  else if op = "<=" then .ok (.bool (decide (a ≤ b)))
  else if op = ">=" then .ok (.bool (decide (b ≤ a)))
  else if op = "==" then .ok (.bool (decide (a = b)))
  else if op = "!=" then .ok (.bool (decide (a ≠ b)))
  else .ok (.error ("unknown operator: INTEGER " ++ op ++ " INTEGER"))

/-- The comparison `match` of `eval_infix_expression` applied to operands
that are not both IntegerObject and not both StringObject: each arm reads
`left.value` then `right.value` (AttributeError when the attribute does not
exist) and applies the native comparison. -/
def genericCompare (op : String) (left right : Option Obj) : Except String Obj :=
  match pyValue left with
  | none => .error "AttributeError"
  | some lv =>
    match pyValue right with
    | none => .error "AttributeError"
    | some rv =>
      if op = "<" then (pyLtB lv rv).map Obj.bool
      else if op = ">" then (pyLtB rv lv).map Obj.bool
      else if op = "<=" then (pyLeB lv rv).map Obj.bool
      else if op = ">=" then (pyLeB rv lv).map Obj.bool
      else if op = "==" then .ok (.bool (pyEqB lv rv))
      else .ok (.bool (!pyEqB lv rv))

/-- Mirrors `eval_infix_expression`.  Note the source order: the comparison
`match` runs BEFORE the `type(left) != type(right)` mismatch check, so mixed
types reach the mismatch error only for operators outside the six
comparisons.  `type(left) != type(right)` separates the runtime classes
exactly as `getTypeName` separates them (one class per tag, `None` included). -/
def eval_infix_expression (op : String) (left right : Option Obj) : Except String Obj :=
  match left, right with
  | some (.int a), some (.int b) => eval_integer_infix_expression op a b
  | some (.str a), some (.str b) =>
    if op ≠ "+" then .ok (.error ("unknown operator: STRING " ++ op ++ " STRING"))
    else .ok (.str (a ++ b))
  | l, r =>
    if op = "<" ∨ op = ">" ∨ op = "<=" ∨ op = ">=" ∨ op = "==" ∨ op = "!=" then
      genericCompare op l r
    else if getTypeName l ≠ getTypeName r then
      .ok (.error ("type mismatch: " ++ getTypeName l ++ " " ++ op ++ " " ++ getTypeName r))
    else
      .ok (.error ("unknown operator: " ++ getTypeName l ++ " " ++ op ++ " " ++ getTypeName r))

/-- Mirrors `ListObject.get_index`: bounds `[0, len)`, message formatted with
`%d` on the index and the length. -/
def get_index (elements : List (Option Obj)) (idx : Int) : Option Obj :=
  if idx < 0 ∨ (elements.length : Int) ≤ idx then
    some (.error ("Index " ++ toString idx ++ " out of bounds for collection of len "
      ++ toString elements.length))
  else
    elements.getD idx.toNat none

/-- Mirrors `eval_index_expression`: only ListObject indexed by IntegerObject
is handled; every other combination produces the literal error string (the
format string hardcodes `ObjectType.INTEGER` and has no `%s` placeholder). -/
def eval_index_expression (collection idx : Option Obj) : Option Obj :=
  match collection, idx with
  | some (.list elements), some (.int i) => get_index elements i
  | _, _ => some (.error "Exprected collection for indexing, got ObjectType.INTEGER")

/-! ## Environments (src/src/evaluator.py, class Environment)

Frames live in an append-only heap; `Obj.func` and `Frame.outer` refer to
frames by index.  `new_enclosed_environment` appends a fresh frame whose
`outer` is the captured environment — the only place a frame is created
apart from the top-level one.
-/

/-- Mirrors `store.get(identifier, None)`: first binding for the key. -/
def storeGet : List (String × Option Obj) → String → Option (Option Obj)
  | [], _ => none
  | (k, v) :: rest, key => if k = key then some v else storeGet rest key

/-- Mirrors `store[identifier] = value` on a Python dict: overwrite the
existing binding or append a new one. -/
def storeSet : List (String × Option Obj) → String → Option Obj → List (String × Option Obj)
  | [], key, value => [(key, value)]
  | (k, v) :: rest, key, value =>
    if k = key then (key, value) :: rest else (k, v) :: storeSet rest key value

/-- Mirrors `Environment.get`: look in the own store, then walk the outer
chain.  A stored Python `None` is indistinguishable from a missing key in
the source (`store.get(id, None)` followed by an `is None` test), hence both
continue to the outer environment; the overall result `none` covers both
"not found" and "bound to None".  `fuel` bounds the outer-chain walk; outer
indices always point to strictly earlier frames, so `heap.length` suffices. -/
def envGet (heap : Heap) : Nat → Nat → String → Option Obj
  | 0, _, _ => none
  | fuel + 1, idx, name =>
    match heap.get? idx with
    | none => none
    | some fr =>
      match storeGet fr.store name with
      | some (some v) => some v
      | _ =>
        match fr.outer with
        | some j => envGet heap fuel j name
        | none => none

/-- Mirrors `Environment.set` on the frame at index `idx`. -/
def envSet (heap : Heap) (idx : Nat) (name : String) (value : Option Obj) : Heap :=
  match heap.get? idx with
  | some fr => heap.set idx { fr with store := storeSet fr.store name value }
  | none => heap

/-- The `builtin` dict installed by `Environment.__init__` (same contents in
every environment instance). -/
def builtinLookup (name : String) : Option Obj :=
  if name = "len" ∨ name = "first" ∨ name = "last" ∨ name = "rest"
      ∨ name = "push" ∨ name = "puts" then
    some (.builtin name)
  else
    none

/-! ## Builtin functions (src/src/evaluator.py, builtin_len .. builtin_puts)

`push` appends to the Python list in place and returns it; list aliasing is
not modelled (lists are values here), so `push` returns the extended list.
`puts` prints its arguments and returns `None`; stdout is not modelled.
No claim depends on list aliasing or on output.
-/

def builtin_len (args : List (Option Obj)) : Res :=
  match args with
  | [some (.str s)] => .ok (some (.int s.length))
  | [some (.list l)] => .ok (some (.int l.length))
  | [_] => .ok (some (.error "Builtin function len expected type String or List"))
  | _ => .ok (some (.error "Builtin function len expected one argument"))

def builtin_first (args : List (Option Obj)) : Res :=
  match args with
  | [some (.list [])] => .ok (some (.error "List is empty"))
  | [some (.list (x :: _))] => .ok x
  | [_] => .ok (some (.error "Builtin function first expected type List"))
  | _ => .ok (some (.error "Builtin function first expected one argument"))

def builtin_last (args : List (Option Obj)) : Res :=
  match args with
  | [some (.list [])] => .ok (some (.error "List is empty"))
  | [some (.list (x :: xs))] => .ok ((x :: xs).getLast (by simp))
  | [_] => .ok (some (.error "Builtin function last expected type List"))
  | _ => .ok (some (.error "Builtin function last expected one argument"))

def builtin_rest (args : List (Option Obj)) : Res :=
  match args with
  | [some (.list l)] =>
    if l.length ≤ 1 then .ok (some (.list [])) else .ok (some (.list l.tail))
  | [_] => .ok (some (.error "Builtin function rest expected type List"))
  | _ => .ok (some (.error "Builtin function rest expected one argument"))

def builtin_push (args : List (Option Obj)) : Res :=
  match args with
  | [value, some (.list l)] => .ok (some (.list (l ++ [value])))
  | [_, _] => .ok (some (.error "Builtin function push expected first argument of type List"))
  | _ => .ok (some (.error "Builtin function push expected two arguments"))

def builtin_puts (_args : List (Option Obj)) : Res := .ok none

/-- Dispatch of `function.fn(*args)` for a BuiltinObject. -/
def applyBuiltin (name : String) (args : List (Option Obj)) : Res :=
  if name = "len" then builtin_len args
  else if name = "first" then builtin_first args
  else if name = "last" then builtin_last args
  else if name = "rest" then builtin_rest args
  else if name = "push" then builtin_push args
  else builtin_puts args

/-- Mirrors `extend_function_env` (via `new_enclosed_environment`): append a
fresh frame whose outer is the function's captured environment and bind the
parameters positionally.  Returns the index of the new frame. -/
def extend_function_env (heap : Heap) (envIdx : Nat) (params : List String)
    (args : List (Option Obj)) : Heap × Nat :=
  let store := (params.zip args).foldl (fun s pa => storeSet s pa.1 pa.2) []
  (heap ++ [{ store := store, outer := some envIdx }], heap.length)

/-- Mirrors `unwrap_return_value`. -/
def unwrap_return_value : Option Obj → Option Obj
  | some (.ret v) => v
  | o => o

/-! ## The evaluator (src/src/evaluator.py, `eval` and friends)

The single Python `eval` dispatches on the node class; it is split here into
`eval_stmt` / `eval_expr` along the Statement / Expression class hierarchy
of the AST.  Every function consumes one unit of fuel on entry and passes
the rest to its callees, so `timeout` for every fuel models divergence and
the functions are structurally recursive on fuel.  `Heap` is threaded
through in Python evaluation order.
-/

mutual

/-- `eval` on Statement nodes.  The LetStatement branch of the source falls
through to `return None` after `env.set`; a for statement likewise returns
`None` (modelled by `eval_for_loop`). -/
def eval_stmt (fuel : Nat) (stmt : Stmt) (env : Nat) (heap : Heap) : Heap × Res :=
  match fuel with
  | 0 => (heap, .timeout)
  | fuel + 1 =>
    match stmt with
    | .exprStmt e => eval_expr fuel e env heap
    | .blockStmt stmts => eval_block_statement fuel stmts env heap
    | .retStmt e =>
      match eval_expr fuel e env heap with
      | (h, .ok v) => if is_error v then (h, .ok v) else (h, .ok (some (.ret v)))
      | other => other
    | .forStmt c i cond u body => eval_for_statement fuel c i cond u body env heap
    | .letStmt name e =>
      match eval_expr fuel e env heap with
      | (h, .ok v) => if is_error v then (h, .ok v) else (envSet h env name v, .ok none)
      | other => other
termination_by structural fuel

/-- `eval` on Expression nodes. -/
def eval_expr (fuel : Nat) (e : Expr) (env : Nat) (heap : Heap) : Heap × Res :=
  match fuel with
  | 0 => (heap, .timeout)
  | fuel + 1 =>
    match e with
    | .intLit n => (heap, .ok (some (.int n)))
    | .strLit s => (heap, .ok (some (.str s)))
    | .boolLit b => (heap, .ok (some (.bool b)))
    | .ident name =>
      match envGet heap heap.length env name with
      | some v => (heap, .ok (some v))
      | none =>
        match builtinLookup name with
        | some v => (heap, .ok (some v))
        | none => (heap, .ok (some (.error ("identifier not found: " ++ name))))
    | .funcLit params body => (heap, .ok (some (.func params body env)))
    | .prefixE op r =>
      match eval_expr fuel r env heap with
      | (h, .ok v) =>
        if is_error v then (h, .ok v) else (h, .ok (some (eval_prefix_expression op v)))
      | other => other
    | .infixE op l r =>
      match eval_expr fuel l env heap with
      | (h, .ok lv) =>
        if is_error lv then (h, .ok lv) else
        match eval_expr fuel r env h with
        | (h2, .ok rv) =>
          if is_error rv then (h2, .ok rv) else
          match eval_infix_expression op lv rv with
          | .ok o => (h2, .ok (some o))
          | .error ex => (h2, .exn ex)
        | other => other
      | other => other
    | .ifE cond cons alt =>
      match eval_expr fuel cond env heap with
      | (h, .ok cv) =>
        if is_error cv then (h, .ok cv)
        else if is_truthy cv then eval_block_statement fuel cons env h
        else
          match alt with
          | some b => eval_block_statement fuel b env h
          | none => (h, .ok (some .null))
      | other => other
    | .listLit es =>
      match eval_expressions fuel es env heap with
      | (h, .vals l) =>
        match l with
        | [some (.error m)] => (h, .ok (some (.error m)))
        | _ => (h, .ok (some (.list l)))
      | (h, .errObj _) => (h, .exn "TypeError")
      | (h, .exn s) => (h, .exn s)
      | (h, .timeout) => (h, .timeout)
    | .callE f argsE =>
      match eval_expr fuel f env heap with
      | (h, .ok fv) =>
        if is_error fv then (h, .ok fv) else
        match eval_expressions fuel argsE env h with
        | (h2, .vals args) => apply_function fuel fv args h2
        | (h2, .errObj eo) => (h2, .ok (some eo))
        | (h2, .exn s) => (h2, .exn s)
        | (h2, .timeout) => (h2, .timeout)
      | other => other
    | .indexE coll idx =>
      match eval_expr fuel coll env heap with
      | (h, .ok cv) =>
        if is_error cv then (h, .ok cv) else
        match eval_expr fuel idx env h with
        | (h2, .ok iv) =>
          if is_error iv then (h2, .ok iv)
          else (h2, .ok (eval_index_expression cv iv))
        | other => other
      | other => other
termination_by structural fuel

/-- Mirrors `eval_block_statement`: return the last statement's value,
short-circuiting on a Return or Error result (a `None` result never
short-circuits). -/
def eval_block_statement (fuel : Nat) (stmts : List Stmt) (env : Nat) (heap : Heap) :
    Heap × Res :=
  match fuel with
  | 0 => (heap, .timeout)
  | fuel + 1 =>
    match stmts with
    | [] => (heap, .ok none)
    | s :: rest =>
      match eval_stmt fuel s env heap with
      | (h, .ok v) =>
        if isRet v ∨ is_error v then (h, .ok v)
        else
          match rest with
          | [] => (h, .ok v)
          | _ :: _ => eval_block_statement fuel rest env h
      | other => other
termination_by structural fuel

/-- Mirrors `eval_expressions`: evaluate left to right, short-circuiting on
the first ErrorObject (which is returned instead of the list). -/
def eval_expressions (fuel : Nat) (es : List Expr) (env : Nat) (heap : Heap) :
    Heap × ListRes :=
  match fuel with
  | 0 => (heap, .timeout)
  | fuel + 1 =>
    match es with
    | [] => (heap, .vals [])
    | e :: rest =>
      match eval_expr fuel e env heap with
      | (h, .ok (some (.error m))) => (h, .errObj (.error m))
      | (h, .ok v) =>
        match eval_expressions fuel rest env h with
        | (h2, .vals l) => (h2, .vals (v :: l))
        | other => other
      | (h, .exn s) => (h, .exn s)
      | (h, .timeout) => (h, .timeout)
termination_by structural fuel

/-- Mirrors `eval_for_statement` up to the `while` loop: evaluate the
initial value, bind the counter in the CURRENT frame, evaluate the
condition once for an error check (dead work kept from the source), then
enter the loop. -/
def eval_for_statement (fuel : Nat) (counter : String) (initial cond : Expr)
    (update : Stmt) (body : List Stmt) (env : Nat) (heap : Heap) : Heap × Res :=
  match fuel with
  | 0 => (heap, .timeout)
  | fuel + 1 =>
    match eval_expr fuel initial env heap with
    | (h, .ok iv) =>
      if is_error iv then (h, .ok iv)
      else
        let h1 := envSet h env counter iv
        match eval_expr fuel cond env h1 with
        | (h2, .ok cv) =>
          if is_error cv then (h2, .ok cv)
          else eval_for_loop fuel cond update body env h2
        | other => other
    | other => other
termination_by structural fuel

/-- The `while is_truthy(eval(condition)) : body ; update` loop of
`eval_for_statement`.  Only an Error from the body exits the loop early
(a Return does not — see claim C1); condition results and the update
result are not error-checked inside the loop; falling out of the loop
returns Python `None`. -/
def eval_for_loop (fuel : Nat) (cond : Expr) (update : Stmt) (body : List Stmt)
    (env : Nat) (heap : Heap) : Heap × Res :=
  match fuel with
  | 0 => (heap, .timeout)
  | fuel + 1 =>
    match eval_expr fuel cond env heap with
    | (h, .ok cv) =>
      if is_truthy cv then
        match eval_block_statement fuel body env h with
        | (h2, .ok bv) =>
          if is_error bv then (h2, .ok bv)
          else
            match eval_stmt fuel update env h2 with
            | (h3, .ok _) => eval_for_loop fuel cond update body env h3
            | other => other
        | other => other
      else (h, .ok none)
    | other => other
termination_by structural fuel

/-- Mirrors `apply_function`: builtins dispatch on the host callable;
FunctionObjects check arity, extend the captured environment with a fresh
frame, evaluate the body block and unwrap a Return; anything else (Python
`None` included) is "not a function". -/
def apply_function (fuel : Nat) (f : Option Obj) (args : List (Option Obj))
    (heap : Heap) : Heap × Res :=
  match fuel with
  | 0 => (heap, .timeout)
  | fuel + 1 =>
    match f with
    | some (.builtin name) => (heap, applyBuiltin name args)
    | some (.func params body envIdx) =>
      if args.length ≠ params.length then
        (heap, .ok (some (.error ("function requires " ++ toString params.length
          ++ " parameters, got " ++ toString args.length))))
      else
        let h1 := (extend_function_env heap envIdx params args).1
        let newEnv := (extend_function_env heap envIdx params args).2
        match eval_stmt fuel (.blockStmt body) newEnv h1 with
        | (h2, .ok v) => (h2, .ok (unwrap_return_value v))
        | other => other
    | _ => (heap, .ok (some (.error ("not a function: " ++ getTypeName f))))
termination_by structural fuel

end

/-- Mirrors `eval_program`: value of the last statement, a bubbling Return
unwrapped by one layer, or the first Error. -/
def eval_program (fuel : Nat) (stmts : List Stmt) (env : Nat) (heap : Heap) :
    Heap × Res :=
  match fuel with
  | 0 => (heap, .timeout)
  | fuel + 1 =>
    match stmts with
    | [] => (heap, .ok none)
    | s :: rest =>
      match eval_stmt fuel s env heap with
      | (h, .ok (some (.ret v))) => (h, .ok v)
      | (h, .ok (some (.error m))) => (h, .ok (some (.error m)))
      | (h, .ok v) =>
        match rest with
        | [] => (h, .ok v)
        | _ :: _ => eval_program fuel rest env h
      | other => other

/-- The top-level environment created by the driver before `eval(Program)`. -/
def initialHeap : Heap := [{ store := [], outer := none }]

/-- Evaluate a whole program from a fresh top-level environment. -/
def runProgram (fuel : Nat) (stmts : List Stmt) : Heap × Res :=
  eval_program fuel stmts 0 initialHeap

/-- Result component of `runProgram`. -/
def runProgramRes (fuel : Nat) (stmts : List Stmt) : Res :=
  (runProgram fuel stmts).2

/-! ## Tokens (src/src/lexer.py) and the Pratt parser (src/parser.py)

The parser is modelled over the token stream contract: a list of tokens
followed by EOF tokens forever (`Lexer.next_token` returns
`Token(TokenType.EOF, '')` once the input is exhausted).  Parser state is
the `cur_token` / `next_token` lookahead pair, the not-yet-consumed tokens,
and the accumulated error list.  As with the evaluator, every recursive
parser function consumes one unit of fuel on entry, so divergence of the
Python parser corresponds to `timeout` for every fuel.
-/

inductive TT where
  | EOF | COMMENT | ILLEGAL
  | LPAR | RPAR | LBRACKET | RBRACKET | LCURLY | RCURLY
  | SEMICOLON | COMMA | STRING
  | EQUALS | MINUS | PLUS | ASTERISK | DIV
  | GT | LT | GEQ | LEQ | EQ | NEQ
  | NOT | TRUE | FALSE
  | IF | ELSE | FOR | FUNC | LET | RETURN
  | ID | DIGIT
deriving DecidableEq

/-- The `.name` of a TokenType member. -/
def ttName : TT → String
  | .EOF => "EOF" | .COMMENT => "COMMENT" | .ILLEGAL => "ILLEGAL"
  | .LPAR => "LPAR" | .RPAR => "RPAR" | .LBRACKET => "LBRACKET"
  | .RBRACKET => "RBRACKET" | .LCURLY => "LCURLY" | .RCURLY => "RCURLY"
  | .SEMICOLON => "SEMICOLON" | .COMMA => "COMMA" | .STRING => "STRING"
  | .EQUALS => "EQUALS" | .MINUS => "MINUS" | .PLUS => "PLUS"
  | .ASTERISK => "ASTERISK" | .DIV => "DIV"
  | .GT => "GT" | .LT => "LT" | .GEQ => "GEQ" | .LEQ => "LEQ"
  | .EQ => "EQ" | .NEQ => "NEQ"
  | .NOT => "NOT" | .TRUE => "TRUE" | .FALSE => "FALSE"
  | .IF => "IF" | .ELSE => "ELSE" | .FOR => "FOR" | .FUNC => "FUNC"
  | .LET => "LET" | .RETURN => "RETURN"
  | .ID => "ID" | .DIGIT => "DIGIT"

/-- Python `str` of a TokenType member (as interpolated into error messages). -/
def ttStr (t : TT) : String := "TokenType." ++ ttName t

structure Tok where
  tt : TT
  literal : String

/-- Python `Token.__str__`. -/
def tokStr (t : Tok) : String :=
  "\x7b" ++ ttName t.tt ++ ":\x27" ++ t.literal ++ "\x27\x7d"

/-- The token the exhausted lexer keeps producing. -/
def eofTok : Tok := { tt := .EOF, literal := "" }

/-- One `lexer.next_token()` call against the remaining token list. -/
def nextTok : List Tok → Tok × List Tok
  | [] => (eofTok, [])
  | t :: ts => (t, ts)

/-- Parser state: `cur_token`, `next_token`, the tokens the lexer has not
yet produced, and `parser.errors`. -/
structure PState where
  cur : Tok
  next : Tok
  rest : List Tok
  errors : List String

/-- Mirrors `Parser.__init__`: two `next_token` calls fill the lookahead. -/
def mkParser (tokens : List Tok) : PState :=
  let (t1, r1) := nextTok tokens
  let (t2, r2) := nextTok r1
  { cur := t1, next := t2, rest := r2, errors := [] }

/-- Mirrors `advance_tokens`. -/
def advance_tokens (st : PState) : PState :=
  let (t, r) := nextTok st.rest
  { cur := st.next, next := t, rest := r, errors := st.errors }

/-- Mirrors the `PRECEDENCES` table; `Precedence` enum values are the auto()
numbers LOWEST = 1 .. INDEX = 8, compared by value. -/
def precedences : TT → Option Nat
  | .PLUS => some 4
  | .MINUS => some 4
  | .ASTERISK => some 5
  | .DIV => some 5
  | .EQ => some 2
  | .NEQ => some 2
  | .LT => some 3
  | .GT => some 3
  | .LEQ => some 3
  | .GEQ => some 3
  | .LPAR => some 7
  | .LBRACKET => some 8
  | _ => none

/-- Mirrors `_peek_precedence` (LOWEST when absent from the table). -/
def peek_precedence (st : PState) : Nat := (precedences st.next.tt).getD 1

/-- Mirrors `_cur_precedence`. -/
def cur_precedence (st : PState) : Nat := (precedences st.cur.tt).getD 1

/-- Mirrors `_peek_error`. -/
def peek_error (st : PState) (tt : TT) : PState :=
  { st with errors := st.errors ++
      ["Expected next token to be " ++ ttStr tt ++ ", got " ++ ttStr st.next.tt ++ "."] }

/-- Mirrors `_expect_peek`. -/
def expect_peek (st : PState) (tt : TT) : PState × Bool :=
  if st.next.tt = tt then (advance_tokens st, true) else (peek_error st tt, false)

/-- Parser AST: one constructor per node class of src/parser.py, with
`Option` exactly where the class annotates the slot `Optional` and the
parse functions may leave it `None`. -/
inductive PNode where
  | program (statements : List PNode)
  | exprStmt (expression : Option PNode)
  | letS (name : PNode) (value : Option PNode)
  | retS (returnValue : Option PNode)
  | forS (counter : PNode) (initialValue : Option PNode) (condition : PNode)
      (updateRule : PNode) (body : PNode)
  | blockS (statements : List PNode)
  | ident (value : String)
  | intLit (value : Int)
  | boolLit (value : Bool)
  | strLit (value : String)
  | listLit (elements : List (Option PNode))
  | funcLit (parameters : Option (List PNode)) (body : PNode)
  | prefixE (op : String) (right : Option PNode)
  | infixE (op : String) (left : Option PNode) (right : Option PNode)
  | ifE (condition : Option PNode) (consequence : PNode) (alternative : Option PNode)
  | callE (function : Option PNode) (arguments : Option (List (Option PNode)))
  | indexE (collection : Option PNode) (idx : Option PNode)

/-- Outcome of one Python parser method call: updated state plus returned
value, an unhandled host exception, or fuel exhaustion. -/
inductive PRes (α : Type) where
  | ok (st : PState) (val : α)
  | exn (e : String)
  | timeout

/-- Mirrors `parse_identifier` (reads the current token, consumes nothing). -/
def parse_identifier (st : PState) : PNode := .ident st.cur.literal

/-- Mirrors `parse_boolean`. -/
def parse_boolean (st : PState) : PNode := .boolLit (st.cur.literal = "true")

/-- Mirrors `parse_string`. -/
def parse_string (st : PState) : PNode := .strLit st.cur.literal

mutual

/-- Mirrors `parse_program` (loop split into `parse_program_loop`). -/
def parse_program (fuel : Nat) (st : PState) : PRes PNode :=
  match fuel with
  | 0 => .timeout
  | fuel + 1 =>
    match parse_program_loop fuel st [] with
    | .ok st1 stmts => .ok st1 (.program stmts)
    | .exn e => .exn e
    | .timeout => .timeout

/-- The `while not cur_token_is(EOF)` loop of `parse_program`. -/
def parse_program_loop (fuel : Nat) (st : PState) (acc : List PNode) :
    PRes (List PNode) :=
  match fuel with
  | 0 => .timeout
  | fuel + 1 =>
    if st.cur.tt = .EOF then .ok st acc
    else
      match parse_statement fuel st with
      | .ok st1 stmtOpt =>
        parse_program_loop fuel (advance_tokens st1)
          (match stmtOpt with | some n => acc ++ [n] | none => acc)
      | .exn e => .exn e
      | .timeout => .timeout
termination_by structural fuel

/-- Mirrors `parse_statement`. -/
def parse_statement (fuel : Nat) (st : PState) : PRes (Option PNode) :=
  match fuel with
  | 0 => .timeout
  | fuel + 1 =>
    match st.cur.tt with
    | .LET => parse_let_statement fuel st
    | .RETURN => parse_return_statement fuel st
    | .FOR => parse_for_statement fuel st
    | _ =>
      match parse_expression_statement fuel st with
      | .ok st1 n => .ok st1 (some n)
      | .exn e => .exn e
      | .timeout => .timeout
termination_by structural fuel

/-- Mirrors `parse_let_statement`. -/
def parse_let_statement (fuel : Nat) (st : PState) : PRes (Option PNode) :=
  match fuel with
  | 0 => .timeout
  | fuel + 1 =>
    match expect_peek st .ID with
    | (st1, false) => .ok st1 none
    | (st1, true) =>
      let name := parse_identifier st1
      match expect_peek st1 .EQUALS with
      | (st2, false) => .ok st2 none
      | (st2, true) =>
        let st3 := advance_tokens st2
        match parse_expression fuel st3 1 with
        | .ok st4 v =>
          let st5 := if st4.next.tt = .SEMICOLON then advance_tokens st4 else st4
          .ok st5 (some (.letS name v))
        | .exn e => .exn e
        | .timeout => .timeout
termination_by structural fuel

/-- Mirrors `parse_return_statement`. -/
def parse_return_statement (fuel : Nat) (st : PState) : PRes (Option PNode) :=
  match fuel with
  | 0 => .timeout
  | fuel + 1 =>
    let st1 := advance_tokens st
    match parse_expression fuel st1 1 with
    | .ok st2 v =>
      let st3 := if st2.next.tt = .SEMICOLON then advance_tokens st2 else st2
      .ok st3 (some (.retS v))
    | .exn e => .exn e
    | .timeout => .timeout
termination_by structural fuel

/-- Mirrors `parse_for_statement`. -/
def parse_for_statement (fuel : Nat) (st : PState) : PRes (Option PNode) :=
  match fuel with
  | 0 => .timeout
  | fuel + 1 =>
    match expect_peek st .LPAR with
    | (st1, false) => .ok st1 none
    | (st1, true) =>
      match expect_peek st1 .ID with
      | (st2, false) => .ok st2 none
      | (st2, true) =>
        let counter := parse_identifier st2
        match expect_peek st2 .EQUALS with
        | (st3, false) => .ok st3 none
        | (st3, true) =>
          let st4 := advance_tokens st3
          match parse_expression fuel st4 1 with
          | .exn e => .exn e
          | .timeout => .timeout
          | .ok st5 iv =>
            let st6 := advance_tokens (advance_tokens st5)
            match parse_expression fuel st6 1 with
            | .exn e => .exn e
            | .timeout => .timeout
            | .ok st7 condOpt =>
              match condOpt with
              | none =>
                .ok { st7 with errors := st7.errors ++
                  ["Couldn\x27t parse condition of the for loop"] } none
              | some condv =>
                let st8 := advance_tokens (advance_tokens st7)
                match parse_let_statement fuel st8 with
                | .exn e => .exn e
                | .timeout => .timeout
                | .ok st9 updOpt =>
                  match updOpt with
                  | none =>
                    .ok { st9 with errors := st9.errors ++
                      ["Couldn\x27t parse update rule of the for loop"] } none
                  | some updv =>
                    match expect_peek st9 .RPAR with
                    | (st10, false) => .ok st10 none
                    | (st10, true) =>
                      match expect_peek st10 .LCURLY with
                      | (st11, false) => .ok st11 none
                      | (st11, true) =>
                        match parse_block_statement fuel st11 with
                        | .ok st12 body =>
                          .ok st12 (some (.forS counter iv condv updv body))
                        | .exn e => .exn e
                        | .timeout => .timeout
termination_by structural fuel

/-- Mirrors `parse_block_statement` (loop split into `parse_block_loop`). -/
def parse_block_statement (fuel : Nat) (st : PState) : PRes PNode :=
  match fuel with
  | 0 => .timeout
  | fuel + 1 =>
    let st1 :=
      if st.cur.tt = .LCURLY then st
      else { st with errors := st.errors ++
        ["Expected \x27\x7b\x27 at the beginning of a block statement."] }
    let st2 := advance_tokens st1
    match parse_block_loop fuel st2 [] with
    | .ok st3 stmts =>
      let st4 := if st3.next.tt = .SEMICOLON then advance_tokens st3 else st3
      .ok st4 (.blockS stmts)
    | .exn e => .exn e
    | .timeout => .timeout
termination_by structural fuel

/-- The `while not cur_token_is(RCURLY)` loop of `parse_block_statement`:
note that there is no EOF check, and a statement parsed at EOF consumes no
tokens. -/
def parse_block_loop (fuel : Nat) (st : PState) (acc : List PNode) :
    PRes (List PNode) :=
  match fuel with
  | 0 => .timeout
  | fuel + 1 =>
    if st.cur.tt = .RCURLY then .ok st acc
    else
      match parse_statement fuel st with
      | .ok st1 stmtOpt =>
        parse_block_loop fuel (advance_tokens st1)
          (match stmtOpt with | some n => acc ++ [n] | none => acc)
      | .exn e => .exn e
      | .timeout => .timeout
termination_by structural fuel

/-- Mirrors `parse_expression_statement`. -/
def parse_expression_statement (fuel : Nat) (st : PState) : PRes PNode :=
  match fuel with
  | 0 => .timeout
  | fuel + 1 =>
    match parse_expression fuel st 1 with
    | .ok st1 v =>
      let st2 := if st1.next.tt = .SEMICOLON then advance_tokens st1 else st1
      .ok st2 (.exprStmt v)
    | .exn e => .exn e
    | .timeout => .timeout
termination_by structural fuel

/-- Mirrors `parse_expression`: dispatch on `prefix_functions`, then run the
Pratt loop (`parse_expression_loop`).  A DIGIT token is converted with
Python `int(...)`, which raises ValueError on a non-numeric literal. -/
def parse_expression (fuel : Nat) (st : PState) (prec : Nat) : PRes (Option PNode) :=
  match fuel with
  | 0 => .timeout
  | fuel + 1 =>
    match st.cur.tt with
    | .ID => parse_expression_loop fuel st (some (parse_identifier st)) prec
    | .DIGIT =>
      match st.cur.literal.toInt? with
      | some n => parse_expression_loop fuel st (some (.intLit n)) prec
      | none => .exn "ValueError"
    | .FUNC =>
      match parse_function_literal fuel st with
      | .ok st1 v => parse_expression_loop fuel st1 v prec
      | .exn e => .exn e
      | .timeout => .timeout
    | .TRUE => parse_expression_loop fuel st (some (parse_boolean st)) prec
    | .FALSE => parse_expression_loop fuel st (some (parse_boolean st)) prec
    | .NOT =>
      match parse_prefix_expression fuel st with
      | .ok st1 v => parse_expression_loop fuel st1 v prec
      | .exn e => .exn e
      | .timeout => .timeout
    | .MINUS =>
      match parse_prefix_expression fuel st with
      | .ok st1 v => parse_expression_loop fuel st1 v prec
      | .exn e => .exn e
      | .timeout => .timeout
    | .LPAR =>
      match parse_grouped_expression fuel st with
      | .ok st1 v => parse_expression_loop fuel st1 v prec
      | .exn e => .exn e
      | .timeout => .timeout
    | .IF =>
      match parse_if_expression fuel st with
      | .ok st1 v => parse_expression_loop fuel st1 v prec
      | .exn e => .exn e
      | .timeout => .timeout
    | .STRING => parse_expression_loop fuel st (some (parse_string st)) prec
    | .LBRACKET =>
      match parse_list_literal fuel st with
      | .ok st1 v => parse_expression_loop fuel st1 v prec
      | .exn e => .exn e
      | .timeout => .timeout
    | _ =>
      .ok { st with errors := st.errors ++
        ["No prefix parser function for " ++ tokStr st.cur] } none
termination_by structural fuel

/-- The `while not peek(SEMICOLON) and prec < peek_precedence` loop of
`parse_expression`, dispatching on `infix_functions`. -/
def parse_expression_loop (fuel : Nat) (st : PState) (left : Option PNode)
    (prec : Nat) : PRes (Option PNode) :=
  match fuel with
  | 0 => .timeout
  | fuel + 1 =>
    if st.next.tt = .SEMICOLON ∨ ¬ prec < peek_precedence st then .ok st left
    else
      match st.next.tt with
      | .PLUS | .MINUS | .ASTERISK | .DIV | .LT | .GT | .EQ | .NEQ | .LEQ | .GEQ =>
        match parse_infix_expression fuel (advance_tokens st) left with
        | .ok st1 v => parse_expression_loop fuel st1 v prec
        | .exn e => .exn e
        | .timeout => .timeout
      | .LPAR =>
        match parse_call_expression fuel (advance_tokens st) left with
        | .ok st1 v => parse_expression_loop fuel st1 v prec
        | .exn e => .exn e
        | .timeout => .timeout
      | .LBRACKET =>
        match parse_index_expression fuel (advance_tokens st) left with
        | .ok st1 v => parse_expression_loop fuel st1 v prec
        | .exn e => .exn e
        | .timeout => .timeout
      | _ => .ok st left
termination_by structural fuel

/-- Mirrors `parse_prefix_expression`. -/
def parse_prefix_expression (fuel : Nat) (st : PState) : PRes (Option PNode) :=
  match fuel with
  | 0 => .timeout
  | fuel + 1 =>
    let op := st.cur.literal
    match parse_expression fuel (advance_tokens st) 6 with
    | .ok st1 r => .ok st1 (some (.prefixE op r))
    | .exn e => .exn e
    | .timeout => .timeout
termination_by structural fuel

/-- Mirrors `parse_infix_expression`. -/
def parse_infix_expression (fuel : Nat) (st : PState) (left : Option PNode) :
    PRes (Option PNode) :=
  match fuel with
  | 0 => .timeout
  | fuel + 1 =>
    let op := st.cur.literal
    let prec := cur_precedence st
    match parse_expression fuel (advance_tokens st) prec with
    | .ok st1 r => .ok st1 (some (.infixE op left r))
    | .exn e => .exn e
    | .timeout => .timeout
termination_by structural fuel

/-- Mirrors `parse_grouped_expression`. -/
def parse_grouped_expression (fuel : Nat) (st : PState) : PRes (Option PNode) :=
  match fuel with
  | 0 => .timeout
  | fuel + 1 =>
    match parse_expression fuel (advance_tokens st) 1 with
    | .ok st1 v =>
      match expect_peek st1 .RPAR with
      | (st2, false) => .ok st2 none
      | (st2, true) => .ok st2 v
    | .exn e => .exn e
    | .timeout => .timeout
termination_by structural fuel

/-- Mirrors `parse_if_expression`. -/
def parse_if_expression (fuel : Nat) (st : PState) : PRes (Option PNode) :=
  match fuel with
  | 0 => .timeout
  | fuel + 1 =>
    match expect_peek st .LPAR with
    | (st1, false) => .ok st1 none
    | (st1, true) =>
      match parse_expression fuel (advance_tokens st1) 1 with
      | .exn e => .exn e
      | .timeout => .timeout
      | .ok st2 cond =>
        match expect_peek st2 .RPAR with
        | (st3, false) => .ok st3 none
        | (st3, true) =>
          match parse_block_statement fuel (advance_tokens st3) with
          | .exn e => .exn e
          | .timeout => .timeout
          | .ok st4 cons =>
            if st4.next.tt = .ELSE then
              match parse_block_statement fuel (advance_tokens (advance_tokens st4)) with
              | .ok st5 alt => .ok st5 (some (.ifE cond cons (some alt)))
              | .exn e => .exn e
              | .timeout => .timeout
            else .ok st4 (some (.ifE cond cons none))
termination_by structural fuel

/-- Mirrors `parse_index_expression` (the result of the final `_expect_peek`
is discarded in the source). -/
def parse_index_expression (fuel : Nat) (st : PState) (coll : Option PNode) :
    PRes (Option PNode) :=
  match fuel with
  | 0 => .timeout
  | fuel + 1 =>
    match parse_expression fuel (advance_tokens st) 1 with
    | .ok st1 idx => .ok (expect_peek st1 .RBRACKET).1 (some (.indexE coll idx))
    | .exn e => .exn e
    | .timeout => .timeout
termination_by structural fuel

/-- Mirrors `parse_call_expression`. -/
def parse_call_expression (fuel : Nat) (st : PState) (fn : Option PNode) :
    PRes (Option PNode) :=
  match fuel with
  | 0 => .timeout
  | fuel + 1 =>
    match parse_expression_list fuel st .RPAR with
    | .ok st1 args => .ok st1 (some (.callE fn args))
    | .exn e => .exn e
    | .timeout => .timeout
termination_by structural fuel

/-- Mirrors `parse_expression_list` (comma loop split off). -/
def parse_expression_list (fuel : Nat) (st : PState) (endTT : TT) :
    PRes (Option (List (Option PNode))) :=
  match fuel with
  | 0 => .timeout
  | fuel + 1 =>
    if st.next.tt = endTT then .ok (advance_tokens st) (some [])
    else
      match parse_expression fuel (advance_tokens st) 1 with
      | .ok st1 e1 => parse_expression_list_loop fuel st1 endTT [e1]
      | .exn e => .exn e
      | .timeout => .timeout
termination_by structural fuel

/-- The `while peek(COMMA)` loop of `parse_expression_list` plus the final
`_expect_peek(end)`. -/
def parse_expression_list_loop (fuel : Nat) (st : PState) (endTT : TT)
    (acc : List (Option PNode)) : PRes (Option (List (Option PNode))) :=
  match fuel with
  | 0 => .timeout
  | fuel + 1 =>
    if st.next.tt = .COMMA then
      match parse_expression fuel (advance_tokens (advance_tokens st)) 1 with
      | .ok st1 e => parse_expression_list_loop fuel st1 endTT (acc ++ [e])
      | .exn e => .exn e
      | .timeout => .timeout
    else
      match expect_peek st endTT with
      | (st1, false) => .ok st1 none
      | (st1, true) => .ok st1 (some acc)
termination_by structural fuel

/-- Mirrors `parse_list_literal`. -/
def parse_list_literal (fuel : Nat) (st : PState) : PRes (Option PNode) :=
  match fuel with
  | 0 => .timeout
  | fuel + 1 =>
    match parse_expression_list fuel st .RBRACKET with
    | .ok st1 none => .ok st1 none
    | .ok st1 (some vs) => .ok st1 (some (.listLit vs))
    | .exn e => .exn e
    | .timeout => .timeout
termination_by structural fuel

/-- Mirrors `parse_function_literal`. -/
def parse_function_literal (fuel : Nat) (st : PState) : PRes (Option PNode) :=
  match fuel with
  | 0 => .timeout
  | fuel + 1 =>
    match expect_peek st .LPAR with
    | (st1, false) => .ok st1 none
    | (st1, true) =>
      match parse_function_parameters fuel st1 with
      | .exn e => .exn e
      | .timeout => .timeout
      | .ok st2 params =>
        match expect_peek st2 .LCURLY with
        | (st3, false) => .ok st3 none
        | (st3, true) =>
          match parse_block_statement fuel st3 with
          | .ok st4 body => .ok st4 (some (.funcLit params body))
          | .exn e => .exn e
          | .timeout => .timeout
termination_by structural fuel

/-- Mirrors `parse_function_parameters` (comma loop split off). -/
def parse_function_parameters (fuel : Nat) (st : PState) :
    PRes (Option (List PNode)) :=
  match fuel with
  | 0 => .timeout
  | fuel + 1 =>
    if st.next.tt = .RPAR then .ok (advance_tokens st) (some [])
    else
      let st1 := advance_tokens st
      parse_function_parameters_loop fuel st1 [parse_identifier st1]

/-- The `while peek(COMMA)` loop of `parse_function_parameters` plus the
final `_expect_peek(RPAR)`. -/
def parse_function_parameters_loop (fuel : Nat) (st : PState) (acc : List PNode) :
    PRes (Option (List PNode)) :=
  match fuel with
  | 0 => .timeout
  | fuel + 1 =>
    if st.next.tt = .COMMA then
      let st1 := advance_tokens (advance_tokens st)
      parse_function_parameters_loop fuel st1 (acc ++ [parse_identifier st1])
    else
      match expect_peek st .RPAR with
      | (st1, false) => .ok st1 none
      | (st1, true) => .ok st1 (some acc)
termination_by structural fuel

end

/-! ## Concrete programs used by the claims -/

/-- `let make = func(x){ func(y){ x+y } }; let addFive = make(5); addFive(3)` -/
def progClosure : List Stmt :=
  [ .letStmt "make" (.funcLit ["x"] [.exprStmt (.funcLit ["y"]
      [.exprStmt (.infixE "+" (.ident "x") (.ident "y"))])]),
    .letStmt "addFive" (.callE (.ident "make") [.intLit 5]),
    .exprStmt (.callE (.ident "addFive") [.intLit 3]) ]

/-- `let f = func(){ for (i = 0; i < 3; let i = i + 1) { return 7; } }; f()` -/
def progForReturnFn : List Stmt :=
  [ .letStmt "f" (.funcLit []
      [ .forStmt "i" (.intLit 0) (.infixE "<" (.ident "i") (.intLit 3))
          (.letStmt "i" (.infixE "+" (.ident "i") (.intLit 1)))
          [.retStmt (.intLit 7)] ]),
    .exprStmt (.callE (.ident "f") []) ]

/-- `for (i = 0; i < 3; let i = i + 1) { return 7; }; i` -/
def progForReturnTop : List Stmt :=
  [ .forStmt "i" (.intLit 0) (.infixE "<" (.ident "i") (.intLit 3))
      (.letStmt "i" (.infixE "+" (.ident "i") (.intLit 1)))
      [.retStmt (.intLit 7)],
    .exprStmt (.ident "i") ]

/-- `return if (true) { return 5 };` -/
def progReturnIfReturn : List Stmt :=
  [ .retStmt (.ifE (.boolLit true) [.retStmt (.intLit 5)] none) ]

/-- `if (0) { 7 }` -/
def progIfZero : List Stmt :=
  [ .exprStmt (.ifE (.intLit 0) [.exprStmt (.intLit 7)] none) ]

/-- `if (false) {} == if (false) {}` — both if-expressions evaluate to the
NULL singleton, so the infix `==` receives NULL operands. -/
def progNullEqNull : List Stmt :=
  [ .exprStmt (.infixE "==" (.ifE (.boolLit false) [] none)
      (.ifE (.boolLit false) [] none)) ]

/-- `5 / 0` -/
def progDivZero : List Stmt :=
  [ .exprStmt (.infixE "/" (.intLit 5) (.intLit 0)) ]

/-- `if (true) { let x = 7; }; x` -/
def progIfLet : List Stmt :=
  [ .exprStmt (.ifE (.boolLit true) [.letStmt "x" (.intLit 7)] none),
    .exprStmt (.ident "x") ]

/-- `for (i = 0; i < 2; let i = i + 1) { }; i` -/
def progForCounter : List Stmt :=
  [ .forStmt "i" (.intLit 0) (.infixE "<" (.ident "i") (.intLit 2))
      (.letStmt "i" (.infixE "+" (.ident "i") (.intLit 1))) [],
    .exprStmt (.ident "i") ]

/-! ## Helper predicates used in the claim statements -/

/-- The result is a bare Return wrapper. -/
def isRetRes : Res → Bool
  | .ok (some (.ret _)) => true
  | _ => false

/-- The value is the FALSE singleton or the NULL singleton. -/
def isFalseOrNull : Obj → Bool
  | .bool false => true
  | .null => true
  | _ => false

/-- The value is a ListObject. -/
def isListObj : Option Obj → Bool
  | some (.list _) => true
  | _ => false

/-- The value is an IntegerObject. -/
def isIntObj : Option Obj → Bool
  | some (.int _) => true
  | _ => false

/-- The six operators the comparison `match` of `eval_infix_expression`
intercepts before the type-mismatch check. -/
def comparisonOps : List String := ["<", ">", "<=", ">=", "==", "!="]

/-- The result is a completed evaluation of the IntegerObject `n`. -/
def resIsInt (r : Res) (n : Int) : Bool :=
  match r with
  | .ok (some (.int m)) => m == n
  | _ => false

/-- The infix-evaluation outcome is an ErrorObject value. -/
def exceptIsErrorObj (e : Except String Obj) : Bool :=
  match e with
  | .ok (.error _) => true
  | _ => false

/-- The value is an ErrorObject carrying exactly the message `m`. -/
def resultHasMsg (v : Option Obj) (m : String) : Bool :=
  match v with
  | some (.error s) => s == m
  | _ => false

/-! ## Claim theorems -/

/-- Claim C7 (confirmed): the closure program
`let make = func(x){ func(y){ x+y } }; let addFive = make(5); addFive(3)`
evaluates to Integer 8 — the Function value captures the environment of its
creation, each call gets a fresh enclosing environment, and the returned
function still reaches `x` after `make` has returned. -/
theorem c7_closure_capture : runProgramRes 50 progClosure = .ok (some (.int 8)) := by
  rfl

/-- Claim C8 (confirmed): `!x` yields the TRUE singleton exactly when x is
the FALSE or NULL singleton and FALSE for every other value; truthiness
treats every value except FALSE and NULL as truthy; consequently
`if (0) { 7 }` takes the consequence branch and yields 7. -/
theorem c8_not_and_truthiness :
    (∀ o : Obj, eval_not_operator_expression (some o) =
      (if isFalseOrNull o then .bool true else .bool false))
    ∧ (∀ o : Obj, is_truthy (some o) = !isFalseOrNull o)
    ∧ runProgramRes 30 progIfZero = .ok (some (.int 7)) := by
  refine ⟨fun o => ?_, fun o => ?_, rfl⟩ <;>
    cases o <;> first | rfl | (rename_i b; cases b <;> rfl)

/-- Claim C2 (code_bug): `==` on the TRUE/FALSE singletons behaves as the
claim says, but `==` applied to NULL and NULL does not return TRUE — the
source compares `left.value == right.value` and `NullObject` has no `value`
attribute (the base class only annotates it), so the evaluation raises an
unhandled host AttributeError. -/
theorem c2_null_eq_attribute_error :
    eval_infix_expression "==" (some (.bool true)) (some (.bool true)) = .ok (.bool true)
    ∧ eval_infix_expression "==" (some (.bool true)) (some (.bool false)) = .ok (.bool false)
    ∧ eval_infix_expression "!=" (some (.bool true)) (some (.bool false)) = .ok (.bool true)
    ∧ eval_infix_expression "==" (some .null) (some .null) = .error "AttributeError"
    ∧ runProgramRes 30 progNullEqNull = .exn "AttributeError" :=
  ⟨rfl, rfl, rfl, rfl, rfl⟩

/-- Claim C4 (code_bug): integer `/` does truncate toward zero, but a zero
right operand does not yield the runtime Error "division by zero" — the
source computes `int(left.value / right.value)` and Python raises an
unhandled ZeroDivisionError. -/
theorem c4_division_by_zero :
    eval_integer_infix_expression "/" 5 0 = .error "ZeroDivisionError"
    ∧ eval_infix_expression "/" (some (.int 5)) (some (.int 0)) = .error "ZeroDivisionError"
    ∧ runProgramRes 20 progDivZero = .exn "ZeroDivisionError"
    ∧ eval_integer_infix_expression "/" (-7) 2 = .ok (.int (-3))
    ∧ eval_integer_infix_expression "/" 7 2 = .ok (.int 3) :=
  ⟨rfl, rfl, rfl, rfl, rfl⟩

/-- Claim C9, counterexample: indexing a String by an Integer produces the
error message with the hardcoded tag `ObjectType.INTEGER`, not the
offending value's tag `ObjectType.STRING` as the claim states. -/
theorem c9_counterexample :
    eval_index_expression (some (.str "a")) (some (.int 0)) =
      some (.error "Exprected collection for indexing, got ObjectType.INTEGER")
    ∧ resultHasMsg (eval_index_expression (some (.str "a")) (some (.int 0)))
      "Exprected collection for indexing, got ObjectType.STRING" = false :=
  ⟨rfl, by decide⟩

/-- Claim C9 (corrected): index expressions are defined only for a List
indexed by an Integer with bounds [0, len); out of range yields
"Index I out of bounds for collection of len N"; every other combination
yields the fixed message "Exprected collection for indexing, got
ObjectType.INTEGER" — with INTEGER hardcoded, independent of the offending
value's type. -/
theorem c9_amended :
    (∀ (elements : List (Option Obj)) (i : Int),
      (i < 0 ∨ (elements.length : Int) ≤ i) →
      eval_index_expression (some (.list elements)) (some (.int i)) =
        some (.error ("Index " ++ toString i ++ " out of bounds for collection of len "
          ++ toString elements.length)))
    ∧ (∀ (elements : List (Option Obj)) (i : Int),
      ¬(i < 0 ∨ (elements.length : Int) ≤ i) →
      eval_index_expression (some (.list elements)) (some (.int i)) =
        elements.getD i.toNat none)
    ∧ (∀ (c idx : Option Obj), (isListObj c = false ∨ isIntObj idx = false) →
      eval_index_expression c idx =
        some (.error "Exprected collection for indexing, got ObjectType.INTEGER")) := by
  refine ⟨fun es i h => ?_, fun es i h => ?_, fun c idx h => ?_⟩
  · simp [eval_index_expression, get_index, h]
  · simp [eval_index_expression, get_index, h]
  · rw [eval_index_expression.eq_def]
    split
    · simp [isListObj, isIntObj] at h
    · rfl

/-- Witness for `c9_amended` at the repository's own test inputs
`[1,2,3][3]` and `2[3]`. -/
theorem c9_amended_witness :
    eval_index_expression (some (.list [some (.int 1), some (.int 2), some (.int 3)]))
      (some (.int 3)) = some (.error "Index 3 out of bounds for collection of len 3")
    ∧ eval_index_expression (some (.int 2)) (some (.int 3)) =
      some (.error "Exprected collection for indexing, got ObjectType.INTEGER") :=
  ⟨c9_amended.1 [some (.int 1), some (.int 2), some (.int 3)] 3 (by decide),
   c9_amended.2.2 (some (.int 2)) (some (.int 3)) (Or.inl rfl)⟩

/-- Claim C3, counterexample: `true == 1` does not produce a type-mismatch
Error — the comparison `match` runs before the type check, so Python's
`True == 1` yields the TRUE singleton. -/
theorem c3_counterexample :
    eval_infix_expression "==" (some (.bool true)) (some (.int 1)) = .ok (.bool true)
    ∧ exceptIsErrorObj (eval_infix_expression "==" (some (.bool true)) (some (.int 1)))
      = false :=
  ⟨rfl, rfl⟩

/-- Claim C3 (corrected): operands of differing runtime types produce
Error "type mismatch: LTYPE OP RTYPE" only for operators outside
`< > <= >= == !=` (e.g. `5 + true`); for the six comparison operators,
the operands' `.value` attributes are compared directly with the native
Python operators instead, so `true == 1` yields TRUE and `"a" < 1` raises
an unhandled host TypeError. -/
theorem c3_amended :
    (∀ (op : String) (l r : Obj), op ∉ comparisonOps →
      getTypeName (some l) ≠ getTypeName (some r) →
      eval_infix_expression op (some l) (some r) =
        .ok (.error ("type mismatch: " ++ getTypeName (some l) ++ " " ++ op
          ++ " " ++ getTypeName (some r))))
    ∧ eval_infix_expression "+" (some (.int 5)) (some (.bool true)) =
      .ok (.error "type mismatch: INTEGER + BOOLEAN")
    ∧ eval_infix_expression "==" (some (.bool true)) (some (.int 1)) = .ok (.bool true)
    ∧ eval_infix_expression "<" (some (.str "a")) (some (.int 1)) = .error "TypeError" := by
  refine ⟨fun op l r hop hty => ?_, rfl, rfl, rfl⟩
  simp only [comparisonOps, List.mem_cons, List.mem_singleton, not_or] at hop
  obtain ⟨h1, h2, h3, h4, h5, h6⟩ := hop
  rw [eval_infix_expression.eq_def]
  split
  · simp_all [getTypeName]
  · simp_all [getTypeName]
  · rw [if_neg (by simp [h1, h2, h3, h4, h5, h6]), if_pos hty]

/-- Witness for `c3_amended` at `5 + true`. -/
theorem c3_amended_witness :
    ("+" ∉ comparisonOps)
    ∧ eval_infix_expression "+" (some (.int 5)) (some (.bool true)) =
      .ok (.error "type mismatch: INTEGER + BOOLEAN") :=
  ⟨by decide, c3_amended.1 "+" (.int 5) (.bool true) (by decide) (by decide)⟩

/-- Claim C6, counterexample: `return if (true) { return 5 };` — the
returned expression itself bubbles a Return, so the return statement wraps
a Return inside a Return; `eval_program` unwraps only one layer and a
Return wrapper surfaces as the top-level result, contradicting "never a
Return wrapper". -/
theorem c6_counterexample :
    runProgramRes 30 progReturnIfReturn = .ok (some (.ret (some (.int 5))))
    ∧ isRetRes (runProgramRes 30 progReturnIfReturn) = true :=
  ⟨rfl, rfl⟩

/-- Claim C6 (corrected): `eval_program` returns the first Error
encountered without evaluating subsequent statements, unwraps a bubbling
Return by exactly one layer, and otherwise returns the value of the last
statement.  (The claim's "never a Return wrapper" holds only up to one
unwrapping: a doubly wrapped Return — `return` of an expression that
itself bubbles a Return — surfaces as a Return wrapper, see
`c6_counterexample`.) -/
theorem c6_amended :
    (∀ (fuel : Nat) (s : Stmt) (rest : List Stmt) (env : Nat) (h h1 : Heap) (m : String),
      eval_stmt fuel s env h = (h1, .ok (some (.error m))) →
      eval_program (fuel + 1) (s :: rest) env h = (h1, .ok (some (.error m))))
    ∧ (∀ (fuel : Nat) (s : Stmt) (rest : List Stmt) (env : Nat) (h h1 : Heap) (v : Option Obj),
      eval_stmt fuel s env h = (h1, .ok (some (.ret v))) →
      eval_program (fuel + 1) (s :: rest) env h = (h1, .ok v))
    ∧ (∀ (fuel : Nat) (s : Stmt) (env : Nat) (h h1 : Heap) (v : Option Obj),
      eval_stmt fuel s env h = (h1, .ok v) → isRet v = false → is_error v = false →
      eval_program (fuel + 1) [s] env h = (h1, .ok v)) := by
  refine ⟨fun fuel s rest env h h1 m he => ?_, fun fuel s rest env h h1 v he => ?_,
    fun fuel s env h h1 v he hr hk => ?_⟩
  · simp [eval_program, he]
  · simp [eval_program, he]
  · cases v with
    | none => simp [eval_program, he]
    | some o => cases o <;> simp_all [eval_program, isRet, is_error]

/-- Witness for `c6_amended`: a program whose first statement evaluates to
Error "identifier not found: a" yields that Error, skipping the rest. -/
theorem c6_amended_witness :
    eval_program 11 [.exprStmt (.ident "a"), .exprStmt (.intLit 5)] 0 initialHeap =
      (initialHeap, .ok (some (.error "identifier not found: a"))) :=
  c6_amended.1 10 (.exprStmt (.ident "a")) [.exprStmt (.intLit 5)] 0 initialHeap
    initialHeap "identifier not found: a" rfl

/-- An evaluation outcome that carries an ErrorObject value is not a
Return wrapper. -/
theorem isRetRes_of_is_error {v : Option Obj} (hv : is_error v = true) :
    isRetRes (.ok v) = false := by
  cases v with
  | none => simp [is_error] at hv
  | some o => cases o <;> simp_all [is_error, isRetRes]

/-- An evaluation outcome that is not an `.ok` (an exception or a timeout)
is not a Return wrapper. -/
theorem isRetRes_not_ok {p : Heap × Res}
    (hp : ∀ (h : Heap) (v : Option Obj), p = (h, .ok v) → False) :
    isRetRes p.2 = false := by
  obtain ⟨h, r⟩ := p
  cases r with
  | ok v => exact (hp h v rfl).elim
  | exn e => rfl
  | timeout => rfl

/-- Claim C1, counterexample: in
`let f = func(){ for (i = 0; i < 3; let i = i + 1) { return 7; } }; f()`
the body of the for loop yields a Return on every iteration, yet the call
evaluates to Python `None`, not Integer 7 — the Return does not propagate
out of the loop to the function boundary. -/
theorem c1_counterexample :
    runProgramRes 80 progForReturnFn = .ok none
    ∧ resIsInt (runProgramRes 80 progForReturnFn) 7 = false :=
  ⟨rfl, rfl⟩

/-- Claim C1 (corrected): a Return produced by a for-loop body does NOT
propagate out of the loop — `eval_for_statement` returns early only on an
Error; a Return from the body is discarded and the loop keeps iterating
until the condition fails (so no evaluation of a for statement ever yields
a Return).  Concretely, `for (i = 0; i < 3; let i = i + 1) { return 7; }; i`
runs all three iterations and leaves `i = 3`. -/
theorem c1_amended :
    (∀ (fuel : Nat) (cond : Expr) (update : Stmt) (body : List Stmt) (env : Nat) (h : Heap),
      isRetRes (eval_for_loop fuel cond update body env h).2 = false)
    ∧ (∀ (fuel : Nat) (c : String) (i cond : Expr) (u : Stmt) (body : List Stmt)
        (env : Nat) (h : Heap),
      isRetRes (eval_for_statement fuel c i cond u body env h).2 = false)
    ∧ runProgramRes 60 progForReturnTop = .ok (some (.int 3)) := by
  have loop : ∀ (fuel : Nat) (cond : Expr) (update : Stmt) (body : List Stmt)
      (env : Nat) (h : Heap),
      isRetRes (eval_for_loop fuel cond update body env h).2 = false := by
    intro fuel
    induction fuel with
    | zero => intro cond update body env h; rfl
    | succ f ih =>
      intro cond update body env h
      simp only [eval_for_loop]
      split
      · split
        · split
          · split
            · exact isRetRes_of_is_error (by assumption)
            · split
              · exact ih ..
              · exact isRetRes_not_ok (by assumption)
          · exact isRetRes_not_ok (by assumption)
        · rfl
      · exact isRetRes_not_ok (by assumption)
  have stmtPart : ∀ (fuel : Nat) (c : String) (i cond : Expr) (u : Stmt)
      (body : List Stmt) (env : Nat) (h : Heap),
      isRetRes (eval_for_statement fuel c i cond u body env h).2 = false := by
    intro fuel c i cond u body env h
    cases fuel with
    | zero => rfl
    | succ f =>
      simp only [eval_for_statement]
      split
      · split
        · exact isRetRes_of_is_error (by assumption)
        · split
          · split
            · exact isRetRes_of_is_error (by assumption)
            · exact loop ..
          · exact isRetRes_not_ok (by assumption)
      · exact isRetRes_not_ok (by assumption)
  exact ⟨loop, stmtPart, rfl⟩

/-! ## Call-freeness (for claim C10)

`new_enclosed_environment` is reachable only through `apply_function`, i.e.
through the evaluation of a CallExpression.  The following predicates mark
AST fragments that contain no CallExpression in evaluation position; a
FunctionLiteral is call-free regardless of its body, because evaluating the
literal only builds a closure without running the body. -/

mutual

def callFreeExpr : Expr → Bool
  | .intLit _ => true
  | .strLit _ => true
  | .boolLit _ => true
  | .ident _ => true
  | .funcLit _ _ => true
  | .listLit es => callFreeExprList es
  | .prefixE _ r => callFreeExpr r
  | .infixE _ l r => callFreeExpr l && callFreeExpr r
  | .ifE c cons alt => callFreeExpr c && callFreeBlock cons && callFreeBlockOpt alt
  | .callE _ _ => false
  | .indexE c i => callFreeExpr c && callFreeExpr i

def callFreeExprList : List Expr → Bool
  | [] => true
  | e :: rest => callFreeExpr e && callFreeExprList rest

def callFreeStmt : Stmt → Bool
  | .exprStmt e => callFreeExpr e
  | .letStmt _ e => callFreeExpr e
  | .retStmt e => callFreeExpr e
  | .blockStmt ss => callFreeBlock ss
  | .forStmt _ i c u b =>
    callFreeExpr i && callFreeExpr c && callFreeStmt u && callFreeBlock b

def callFreeBlock : List Stmt → Bool
  | [] => true
  | s :: rest => callFreeStmt s && callFreeBlock rest

def callFreeBlockOpt : Option (List Stmt) → Bool
  | some b => callFreeBlock b
  | none => true

end

/-- `Environment.set` updates a frame in place and never changes the number
of frames. -/
theorem envSet_length (h : Heap) (idx : Nat) (name : String) (v : Option Obj) :
    (envSet h idx name v).length = h.length := by
  unfold envSet
  cases h.get? idx with
  | none => rfl
  | some fr => simp

/-- Call-free evaluation never allocates an environment frame: the heap
length is preserved by every evaluator function when the evaluated fragment
contains no CallExpression. -/
theorem heap_preservation (fuel : Nat) :
    (∀ (s : Stmt) (env : Nat) (h : Heap), callFreeStmt s = true →
      ((eval_stmt fuel s env h).1).length = h.length)
    ∧ (∀ (e : Expr) (env : Nat) (h : Heap), callFreeExpr e = true →
      ((eval_expr fuel e env h).1).length = h.length)
    ∧ (∀ (ss : List Stmt) (env : Nat) (h : Heap), callFreeBlock ss = true →
      ((eval_block_statement fuel ss env h).1).length = h.length)
    ∧ (∀ (es : List Expr) (env : Nat) (h : Heap), callFreeExprList es = true →
      ((eval_expressions fuel es env h).1).length = h.length)
    ∧ (∀ (c : String) (i cond : Expr) (u : Stmt) (body : List Stmt) (env : Nat) (h : Heap),
      callFreeExpr i = true → callFreeExpr cond = true → callFreeStmt u = true →
      callFreeBlock body = true →
      ((eval_for_statement fuel c i cond u body env h).1).length = h.length)
    ∧ (∀ (cond : Expr) (u : Stmt) (body : List Stmt) (env : Nat) (h : Heap),
      callFreeExpr cond = true → callFreeStmt u = true → callFreeBlock body = true →
      ((eval_for_loop fuel cond u body env h).1).length = h.length) := by
  induction fuel with
  | zero =>
    exact ⟨fun _ _ _ _ => rfl, fun _ _ _ _ => rfl, fun _ _ _ _ => rfl,
      fun _ _ _ _ => rfl, fun _ _ _ _ _ _ _ _ _ _ _ => rfl,
      fun _ _ _ _ _ _ _ _ => rfl⟩
  | succ f ih =>
    obtain ⟨ihS, ihE, ihB, ihL, ihFS, ihFL⟩ := ih
    refine ⟨?_, ?_, ?_, ?_, ?_, ?_⟩
    · -- eval_stmt
      intro s env h hcf
      cases s with
      | exprStmt e =>
        simp only [callFreeStmt] at hcf
        exact ihE e env h hcf
      | blockStmt ss =>
        simp only [callFreeStmt] at hcf
        exact ihB ss env h hcf
      | retStmt e =>
        simp only [callFreeStmt] at hcf
        simp only [eval_stmt]
        split
        · rename_i h1 v heq
          have H1 : h1.length = h.length := by
            have := ihE e env h hcf; rw [heq] at this; exact this
          split <;> exact H1
        · exact ihE e env h hcf
      | letStmt name e =>
        simp only [callFreeStmt] at hcf
        simp only [eval_stmt]
        split
        · rename_i h1 v heq
          have H1 : h1.length = h.length := by
            have := ihE e env h hcf; rw [heq] at this; exact this
          split
          · exact H1
          · simpa [envSet_length] using H1
        · exact ihE e env h hcf
      | forStmt c i cond u body =>
        simp only [callFreeStmt, Bool.and_eq_true] at hcf
        obtain ⟨⟨⟨hi, hc⟩, hu⟩, hb⟩ := hcf
        exact ihFS c i cond u body env h hi hc hu hb
    · -- eval_expr
      intro e env h hcf
      cases e with
      | intLit n => rfl
      | strLit s => rfl
      | boolLit b => rfl
      | funcLit p b => rfl
      | ident name =>
        simp only [eval_expr]
        split
        · rfl
        · split <;> rfl
      | prefixE op r =>
        simp only [callFreeExpr] at hcf
        simp only [eval_expr]
        split
        · rename_i h1 v heq
          have H1 : h1.length = h.length := by
            have := ihE r env h hcf; rw [heq] at this; exact this
          split <;> exact H1
        · exact ihE r env h hcf
      | infixE op l r =>
        simp only [callFreeExpr, Bool.and_eq_true] at hcf
        obtain ⟨hl, hr⟩ := hcf
        simp only [eval_expr]
        split
        · rename_i h1 lv heq1
          have H1 : h1.length = h.length := by
            have := ihE l env h hl; rw [heq1] at this; exact this
          split
          · exact H1
          · split
            · rename_i h2 rv heq2
              have H2 : h2.length = h1.length := by
                have := ihE r env h1 hr; rw [heq2] at this; exact this
              split
              · exact H2.trans H1
              · split <;> exact H2.trans H1
            · exact (ihE r env h1 hr).trans H1
        · exact ihE l env h hl
      | ifE cond cons alt =>
        simp only [callFreeExpr, Bool.and_eq_true] at hcf
        obtain ⟨⟨hc, hcons⟩, halt⟩ := hcf
        simp only [eval_expr]
        split
        · rename_i h1 cv heq1
          have H1 : h1.length = h.length := by
            have := ihE cond env h hc; rw [heq1] at this; exact this
          split
          · exact H1
          · split
            · exact (ihB cons env h1 hcons).trans H1
            · split
              · rename_i b
                have hb : callFreeBlock b = true := by
                  simpa [callFreeBlockOpt] using halt
                exact (ihB b env h1 hb).trans H1
              · exact H1
        · exact ihE cond env h hc
      | listLit es =>
        simp only [callFreeExpr] at hcf
        simp only [eval_expr]
        split
        · rename_i h1 l heq
          have H1 : h1.length = h.length := by
            have := ihL es env h hcf; rw [heq] at this; exact this
          split <;> exact H1
        · rename_i h1 o heq
          have := ihL es env h hcf; rw [heq] at this; exact this
        · rename_i h1 s heq
          have := ihL es env h hcf; rw [heq] at this; exact this
        · rename_i h1 heq
          have := ihL es env h hcf; rw [heq] at this; exact this
      | callE fn args => simp [callFreeExpr] at hcf
      | indexE coll idx =>
        simp only [callFreeExpr, Bool.and_eq_true] at hcf
        obtain ⟨hc, hi⟩ := hcf
        simp only [eval_expr]
        split
        · rename_i h1 cv heq1
          have H1 : h1.length = h.length := by
            have := ihE coll env h hc; rw [heq1] at this; exact this
          split
          · exact H1
          · split
            · rename_i h2 iv heq2
              have H2 : h2.length = h1.length := by
                have := ihE idx env h1 hi; rw [heq2] at this; exact this
              split <;> exact H2.trans H1
            · exact (ihE idx env h1 hi).trans H1
        · exact ihE coll env h hc
    · -- eval_block_statement
      intro ss env h hcf
      cases ss with
      | nil => rfl
      | cons s rest =>
        simp only [callFreeBlock, Bool.and_eq_true] at hcf
        obtain ⟨hs, hrest⟩ := hcf
        simp only [eval_block_statement]
        split
        · rename_i h1 v heq
          have H1 : h1.length = h.length := by
            have := ihS s env h hs; rw [heq] at this; exact this
          split
          · exact H1
          · split
            · exact H1
            · rename_i x xs
              exact (ihB (x :: xs) env h1 hrest).trans H1
        · exact ihS s env h hs
    · -- eval_expressions
      intro es env h hcf
      cases es with
      | nil => rfl
      | cons e rest =>
        simp only [callFreeExprList, Bool.and_eq_true] at hcf
        obtain ⟨he, hrest⟩ := hcf
        simp only [eval_expressions]
        split
        · rename_i h1 m heq
          have := ihE e env h he; rw [heq] at this; exact this
        · rename_i h1 v _ heq
          have H1 : h1.length = h.length := by
            have := ihE e env h he; rw [heq] at this; exact this
          split
          · rename_i h2 l heq2
            have H2 : h2.length = h1.length := by
              have := ihL rest env h1 hrest; rw [heq2] at this; exact this
            exact H2.trans H1
          · exact (ihL rest env h1 hrest).trans H1
        · rename_i h1 s heq
          have := ihE e env h he; rw [heq] at this; exact this
        · rename_i h1 heq
          have := ihE e env h he; rw [heq] at this; exact this
    · -- eval_for_statement
      intro c i cond u body env h hi hc hu hb
      simp only [eval_for_statement]
      split
      · rename_i h1 iv heq1
        have H1 : h1.length = h.length := by
          have := ihE i env h hi; rw [heq1] at this; exact this
        split
        · exact H1
        · split
          · rename_i h2 cv heq2
            have H2 : h2.length = h1.length := by
              have := ihE cond env (envSet h1 env c iv) hc; rw [heq2] at this
              exact this.trans (envSet_length h1 env c iv)
            split
            · exact H2.trans H1
            · exact (ihFL cond u body env h2 hc hu hb).trans (H2.trans H1)
          · have := ihE cond env (envSet h1 env c iv) hc
            exact (this.trans (envSet_length h1 env c iv)).trans H1
      · exact ihE i env h hi
    · -- eval_for_loop
      intro cond u body env h hc hu hb
      simp only [eval_for_loop]
      split
      · rename_i h1 cv heq1
        have H1 : h1.length = h.length := by
          have := ihE cond env h hc; rw [heq1] at this; exact this
        split
        · split
          · rename_i h2 bv heq2
            have H2 : h2.length = h1.length := by
              have := ihB body env h1 hb; rw [heq2] at this; exact this
            split
            · exact H2.trans H1
            · split
              · rename_i h3 uv heq3
                have H3 : h3.length = h2.length := by
                  have := ihS u env h2 hu; rw [heq3] at this; exact this
                exact (ihFL cond u body env h3 hc hu hb).trans
                  (H3.trans (H2.trans H1))
              · exact (ihS u env h2 hu).trans (H2.trans H1)
          · exact (ihB body env h1 hb).trans H1
        · exact H1
      · exact ihE cond env h hc

/-- Claim C10 (confirmed): block statements do not introduce an environment
frame — evaluating any call-free statement or expression (if branches, for
bodies, nested blocks, lets) leaves the number of frames unchanged, so a
fresh frame appears only through a function call; concretely,
`if (true) { let x = 7; }; x` yields 7 (the `let` inside the block bound
`x` in the enclosing frame and it stays visible after the block), and
`for (i = 0; i < 2; let i = i + 1) { }; i` yields 2 (the loop counter lives
in the enclosing frame). -/
theorem c10_block_scoping :
    (∀ (fuel : Nat) (s : Stmt) (env : Nat) (h : Heap), callFreeStmt s = true →
      ((eval_stmt fuel s env h).1).length = h.length)
    ∧ (∀ (fuel : Nat) (e : Expr) (env : Nat) (h : Heap), callFreeExpr e = true →
      ((eval_expr fuel e env h).1).length = h.length)
    ∧ runProgramRes 30 progIfLet = .ok (some (.int 7))
    ∧ runProgramRes 60 progForCounter = .ok (some (.int 2)) :=
  ⟨fun fuel => (heap_preservation fuel).1,
   fun fuel => (heap_preservation fuel).2.1, rfl, rfl⟩

/-- Witness for `c10_block_scoping`: the call-free statement
`let x = 7` evaluated in the top-level frame preserves the heap length. -/
theorem c10_block_scoping_witness :
    callFreeStmt (.letStmt "x" (.intLit 7)) = true
    ∧ ((eval_stmt 5 (.letStmt "x" (.intLit 7)) 0 initialHeap).1).length =
      initialHeap.length :=
  ⟨by simp [callFreeStmt, callFreeExpr],
   c10_block_scoping.1 5 (.letStmt "x" (.intLit 7)) 0 initialHeap
     (by simp [callFreeStmt, callFreeExpr])⟩

/-! ## Divergence of the parser on an unterminated block (claim C5)

Source text `func() {` lexes to FUNC LPAR RPAR LCURLY followed by EOF
forever.  `parse_block_statement` enters its `while not cur_token_is(RCURLY)`
loop with the current token EOF; `parse_statement` at EOF records one error
and consumes nothing, the loop advances onto further EOF tokens, and the
condition never becomes true: `parse_program` never returns. -/

/-- Token stream of the source text `func() {`. -/
def c5BadTokens : List Tok :=
  [⟨.FUNC, "func"⟩, ⟨.LPAR, "("⟩, ⟨.RPAR, ")"⟩, ⟨.LCURLY, "\x7b"⟩]

/-- Parser state once the lexer is exhausted: both lookahead tokens are EOF
and every further `next_token` yields EOF. -/
def eofState (errors : List String) : PState :=
  { cur := eofTok, next := eofTok, rest := [], errors := errors }

/-- The parser state on entering `parse_block_statement` for the block of
`func() {`. -/
def c5BlockState : PState :=
  { cur := ⟨.LCURLY, "\x7b"⟩, next := eofTok, rest := [], errors := [] }

/-- At EOF, `parse_statement` consumes nothing: it records the missing
prefix-parser error and returns an ExpressionStatement with no expression,
leaving the token state unchanged. -/
theorem parse_statement_eof (f : Nat) (errs : List String) :
    parse_statement (f + 3) (eofState errs) =
      .ok (eofState (errs ++ ["No prefix parser function for " ++ tokStr eofTok]))
        (some (.exprStmt none)) := rfl

/-- The block-statement loop never terminates once the current token is EOF
with an exhausted lexer: each iteration leaves the token state unchanged. -/
theorem parse_block_loop_eof :
    ∀ (f : Nat) (errs : List String) (acc : List PNode),
      parse_block_loop f (eofState errs) acc = .timeout := by
  intro f
  induction f with
  | zero => intro errs acc; rfl
  | succ g ih =>
    rcases g with _ | _ | _ | n
    · intro errs acc; rfl
    · intro errs acc; rfl
    · intro errs acc; rfl
    · intro errs acc
      exact ih (errs ++ ["No prefix parser function for " ++ tokStr eofTok])
        (acc ++ [.exprStmt none])

/-- `parse_block_statement` diverges from `c5BlockState`. -/
theorem parse_block_statement_diverges (f : Nat) :
    parse_block_statement f c5BlockState = .timeout := by
  cases f with
  | zero => rfl
  | succ g =>
    calc parse_block_statement (g + 1) c5BlockState
        = (match parse_block_loop g (eofState []) [] with
           | .ok st3 stmts =>
             .ok (if st3.next.tt = .SEMICOLON then advance_tokens st3 else st3)
               (.blockS stmts)
           | .exn e => .exn e
           | .timeout => .timeout) := rfl
      _ = .timeout := by rw [parse_block_loop_eof g]

/-- `parse_function_literal` diverges at the start of `func() {`. -/
theorem parse_function_literal_diverges (f : Nat) :
    parse_function_literal f (mkParser c5BadTokens) = .timeout := by
  cases f with
  | zero => rfl
  | succ g =>
    cases g with
    | zero => rfl
    | succ n =>
      calc parse_function_literal (n + 2) (mkParser c5BadTokens)
          = (match parse_block_statement (n + 1) c5BlockState with
             | .ok st4 body => .ok st4 (some (.funcLit (some []) body))
             | .exn e => .exn e
             | .timeout => .timeout) := rfl
        _ = .timeout := by rw [parse_block_statement_diverges (n + 1)]

/-- `parse_expression` diverges at the start of `func() {`. -/
theorem parse_expression_diverges (f : Nat) :
    parse_expression f (mkParser c5BadTokens) 1 = .timeout := by
  cases f with
  | zero => rfl
  | succ g =>
    calc parse_expression (g + 1) (mkParser c5BadTokens) 1
        = (match parse_function_literal g (mkParser c5BadTokens) with
           | .ok st1 v => parse_expression_loop g st1 v 1
           | .exn e => .exn e
           | .timeout => .timeout) := rfl
      _ = .timeout := by rw [parse_function_literal_diverges g]

/-- `parse_expression_statement` diverges at the start of `func() {`. -/
theorem parse_expression_statement_diverges (f : Nat) :
    parse_expression_statement f (mkParser c5BadTokens) = .timeout := by
  cases f with
  | zero => rfl
  | succ g =>
    calc parse_expression_statement (g + 1) (mkParser c5BadTokens)
        = (match parse_expression g (mkParser c5BadTokens) 1 with
           | .ok st1 v =>
             .ok (if st1.next.tt = .SEMICOLON then advance_tokens st1 else st1)
               (.exprStmt v)
           | .exn e => .exn e
           | .timeout => .timeout) := rfl
      _ = .timeout := by rw [parse_expression_diverges g]

/-- `parse_statement` diverges at the start of `func() {`. -/
theorem parse_statement_diverges (f : Nat) :
    parse_statement f (mkParser c5BadTokens) = .timeout := by
  cases f with
  | zero => rfl
  | succ g =>
    calc parse_statement (g + 1) (mkParser c5BadTokens)
        = (match parse_expression_statement g (mkParser c5BadTokens) with
           | .ok st1 n => .ok st1 (some n)
           | .exn e => .exn e
           | .timeout => .timeout) := rfl
      _ = .timeout := by rw [parse_expression_statement_diverges g]

/-- The program loop diverges on `func() {`. -/
theorem parse_program_loop_diverges (f : Nat) :
    parse_program_loop f (mkParser c5BadTokens) [] = .timeout := by
  cases f with
  | zero => rfl
  | succ g =>
    calc parse_program_loop (g + 1) (mkParser c5BadTokens) []
        = (match parse_statement g (mkParser c5BadTokens) with
           | .ok st1 stmtOpt =>
             parse_program_loop g (advance_tokens st1)
               (match stmtOpt with | some n => [] ++ [n] | none => [])
           | .exn e => .exn e
           | .timeout => .timeout) := rfl
      _ = .timeout := by rw [parse_statement_diverges g]

/-- Claim C5 (code_bug): `parse_program` does NOT terminate on every token
stream that eventually emits EOF — on the stream of `func() {` (a block
statement whose closing brace is missing before EOF) it returns timeout at
every fuel, i.e. the Python parser loops forever instead of consuming
tokens through EOF and recording errors. -/
theorem c5_parse_program_diverges (fuel : Nat) :
    parse_program fuel (mkParser c5BadTokens) = .timeout := by
  cases fuel with
  | zero => rfl
  | succ f =>
    calc parse_program (f + 1) (mkParser c5BadTokens)
        = (match parse_program_loop f (mkParser c5BadTokens) [] with
           | .ok st1 stmts => .ok st1 (.program stmts)
           | .exn e => .exn e
           | .timeout => .timeout) := rfl
      _ = .timeout := by rw [parse_program_loop_diverges f]

end Vih
